import Mathlib

/-!
Verification development for the SurveyApp repository (Express + Mongoose
lifestyle-survey backend).  The embedding below translates the two pieces of
core logic:

* the submission validation middleware chain (`validateSurvey` in the routes
  file) together with the persistence step (`submitSurvey` in
  `surveyController.js`), and
* the statistics aggregation (`getSurveyStats` in `surveyController.js`).

Modelling choices:

* JavaScript `Date` values are abstracted as year/month/day triples
  (`SimpleDate`).  The age computations in the source only use
  `getFullYear`, `getMonth` and `getDate` through differences and
  comparisons, so the embedding is invariant under the 0-based/1-based
  month convention; calendar month numbers are used.
* JavaScript numbers are IEEE-754 binary64 doubles.  Arithmetic on integers
  within the exact range (|v| < 2^53, which covers every sum of ages,
  rating sums and counts that occur in the claims) is modelled exactly on
  `Int`; exact rational intermediate values are carried by the unnormalised
  fraction type `Frac` (kept unreduced so every operation evaluates inside
  the kernel), and each division and multiplication that can round is
  wrapped in `roundDouble`, an executable round-to-nearest, ties-to-even
  rounding of a rational to a 53-bit-significand value (overflow and
  subnormals are irrelevant in the value ranges of this program).
* `Number.prototype.toFixed(1)` is modelled by `toFixed1Str` following the
  ECMAScript algorithm for |x| < 10^21: take the sign apart, pick the
  integer n minimising |n/10 - |x||, ties towards the larger n (i.e.
  half-away-from-zero on the stored double), and print with one digit
  after the decimal point.
* String helpers work on `String.data` character lists so that everything
  reduces inside the kernel; JavaScript `trim` is modelled on the common
  ASCII whitespace characters.
* Third-party validator.js checks that the routes call are modelled by
  executable functions: `isNumericDefault` is the documented default
  `isNumeric` regexp `^[+-]?([0-9]*[.])?[0-9]+$` (no `no_symbols` option is
  passed in the source), `isEmailModel` is a simplified structural email
  check, and `normalizeEmailModel` models the default lowercasing of
  `normalizeEmail` (provider-specific canonicalisation is not modelled).
-/

/-- A calendar date, abstracting the components a JavaScript `Date` exposes
through `getFullYear()`, `getMonth()` and `getDate()`. -/
structure SimpleDate where
  year : ℤ
  month : ℤ
  day : ℤ
deriving DecidableEq

/-- Age computation of the validation middleware (routes file, custom
check on `dateOfBirth`):
`age = today.getFullYear() - birthDate.getFullYear();`
`monthDiff = today.getMonth() - birthDate.getMonth();`
`if (monthDiff < 0 || (monthDiff === 0 && today.getDate() < birthDate.getDate())) age--;` -/
def computeAgeValidator (today birth : SimpleDate) : ℤ :=
  let age := today.year - birth.year
  let monthDiff := today.month - birth.month
  if monthDiff < 0 ∨ (monthDiff = 0 ∧ today.day < birth.day) then age - 1 else age

/-- Age computation of the aggregation path (`getSurveyStats` in
`surveyController.js`, the `surveys.map` body); textually the same
algorithm as the validator's. -/
def computeAgeStats (today birth : SimpleDate) : ℤ :=
  let age := today.year - birth.year
  let monthDiff := today.month - birth.month
  if monthDiff < 0 ∨ (monthDiff = 0 ∧ today.day < birth.day) then age - 1 else age

/-- JavaScript whitespace as far as the strings in this development are
concerned (`String.prototype.trim`). -/
def isWhitespaceChar (c : Char) : Bool :=
  c = ' ' || c = '\t' || c = '\n' || c = '\r'

/-- Model of the `trim()` sanitizer: drop leading and trailing whitespace. -/
def trimModel (s : String) : String :=
  ⟨((s.data.dropWhile isWhitespaceChar).reverse.dropWhile isWhitespaceChar).reverse⟩

/-- Model of validator.js `isNumeric` with its default options, as called by
`body('contactNumber').isNumeric()` in the routes file.  The default regexp
is `^[+-]?([0-9]*[.])?[0-9]+$`: an optional sign, then an optional run of
digits followed by a decimal point, then at least one digit.  Note that the
source does not pass the `no_symbols` option. -/
def isNumericDefault (s : String) : Bool :=
  let cs := s.data
  let cs := match cs with
    | c :: rest => if c = '+' || c = '-' then rest else c :: rest
    | [] => []
  let ds := cs.takeWhile (fun c => c.isDigit)
  let rest := cs.dropWhile (fun c => c.isDigit)
  match rest with
  | [] => !ds.isEmpty
  | c :: rest2 => c = '.' && !rest2.isEmpty && rest2.all (fun c => c.isDigit)

/-- Model of validator.js `isEmail` (third-party library code), simplified
to the structural core: exactly one `@`, a non-empty local part, a
non-empty domain containing an inner dot, and no spaces. -/
def isEmailModel (s : String) : Bool :=
  let cs := s.data
  let pre := cs.takeWhile (fun c => c != '@')
  let post := cs.dropWhile (fun c => c != '@')
  match post with
  | [] => false
  | _ :: dom =>
    !pre.isEmpty && !dom.isEmpty &&
    dom.all (fun c => c != '@') &&
    pre.all (fun c => c != ' ') && dom.all (fun c => c != ' ') &&
    dom.contains '.' &&
    dom.head? != some '.' && dom.getLast? != some '.'

/-- Model of validator.js `normalizeEmail` with default options: the result
is the lowercased address (provider-specific canonicalisation such as
gmail dot-removal is not modelled; it never arises in the claims). -/
def normalizeEmailModel (s : String) : String :=
  ⟨s.data.map Char.toLower⟩

/-- An exact fraction with (by construction, in every use below) positive
denominator.  Rational arithmetic is carried out on these without
normalisation so that every operation reduces inside the kernel; the
denoted value is `num / den`. -/
structure Frac where
  num : ℤ
  den : ℤ
deriving DecidableEq

/-- The fraction denoting an integer. -/
def intF (n : ℤ) : Frac := ⟨n, 1⟩

/-- Exact fraction addition (no normalisation). -/
def fadd (a b : Frac) : Frac := ⟨a.num * b.den + b.num * a.den, a.den * b.den⟩

/-- Exact fraction negation. -/
def fneg (a : Frac) : Frac := ⟨-a.num, a.den⟩

/-- Exact fraction subtraction. -/
def fsub (a b : Frac) : Frac := fadd a (fneg b)

/-- Exact fraction multiplication (no normalisation). -/
def fmul (a b : Frac) : Frac := ⟨a.num * b.num, a.den * b.den⟩

/-- Exact fraction division; only ever applied to a positive divisor, so
the positive-denominator invariant is preserved. -/
def fdivF (a b : Frac) : Frac := ⟨a.num * b.den, a.den * b.num⟩

/-- Strict order on fractions with positive denominators. -/
def flt (a b : Frac) : Prop := a.num * b.den < b.num * a.den

/-- Non-strict order on fractions with positive denominators. -/
def fle (a b : Frac) : Prop := a.num * b.den ≤ b.num * a.den

instance decFlt (a b : Frac) : Decidable (flt a b) := by
  unfold flt; infer_instance

instance decFle (a b : Frac) : Decidable (fle a b) := by
  unfold fle; infer_instance

/-- Floor of a fraction with positive denominator. -/
def ffloor (a : Frac) : ℤ := Int.fdiv a.num a.den

/-- The raw `dateOfBirth` field of a submission: absent, a string that
`isISO8601` rejects, or a parseable calendar date. -/
inductive DobInput where
  | missing : DobInput
  | malformed : String → DobInput
  | parsed : SimpleDate → DobInput

/-- A raw rating field of a submission: absent, a non-numeric string, or a
numeric value (JSON numbers and numeric strings are modelled by a positive
denominator fraction; `isInt` accepts the value exactly when it denotes an
integer). -/
inductive RatingInput where
  | missing : RatingInput
  | nonNumeric : String → RatingInput
  | num : Frac → RatingInput

/-- The untyped candidate submission body, with one slot per field the
validation chain in the routes file touches. -/
structure RawInput where
  fullName : Option String
  email : Option String
  contactNumber : Option String
  dateOfBirth : DobInput
  favoriteFoods : Option (List String)
  eatOut : RatingInput
  watchMovies : RatingInput
  watchTV : RatingInput
  listenRadio : RatingInput

/-- A field-level validation error as produced by the error handler in the
routes file: `{ field: err.path, message: err.msg }`. -/
abbrev FieldError : Type := String × String

/-- `body('fullName').trim().notEmpty().isLength({min:2,max:50})`.
express-validator substitutes the empty string for an absent field; all
validators of a chain run (no `bail()`), so an empty name collects both
messages. -/
def validateFullName (o : Option String) : List FieldError :=
  let v := trimModel (o.getD (""))
  (if v = ("") then [(("fullName"), ("Full name is required"))] else []) ++
  (if v.length < 2 ∨ 50 < v.length then
    [(("fullName"), ("Name must be between 2-50 characters"))] else [])

/-- `body('email').trim().notEmpty().isEmail().normalizeEmail()`. -/
def validateEmail (o : Option String) : List FieldError :=
  let v := trimModel (o.getD (""))
  (if v = ("") then [(("email"), ("Email is required"))] else []) ++
  (if !(isEmailModel v) then [(("email"), ("Please enter a valid email"))] else [])

/-- `body('contactNumber').trim().notEmpty().isLength({min:10,max:10}).isNumeric()`. -/
def validateContactNumber (o : Option String) : List FieldError :=
  let v := trimModel (o.getD (""))
  (if v = ("") then [(("contactNumber"), ("Contact number is required"))] else []) ++
  (if ¬ v.length = 10 then
    [(("contactNumber"), ("Contact number must be 10 digits"))] else []) ++
  (if !(isNumericDefault v) then
    [(("contactNumber"), ("Contact number must contain only numbers"))] else [])

/-- `body('dateOfBirth').notEmpty().isISO8601().custom(...)`.  On an absent
field both `notEmpty` and `isISO8601` fail while the custom age check, fed
`NaN` components, throws nothing; on a malformed string only `isISO8601`
fails; on a parsed date only the custom age-range check can fail. -/
def validateDateOfBirth (today : SimpleDate) (dob : DobInput) : List FieldError :=
  match dob with
  | .missing =>
    [(("dateOfBirth"), ("Date of birth is required")),
     (("dateOfBirth"), ("Please use a valid date format (YYYY-MM-DD)"))]
  | .malformed _ =>
    [(("dateOfBirth"), ("Please use a valid date format (YYYY-MM-DD)"))]
  | .parsed d =>
    let age := computeAgeValidator today d
    if age < 5 ∨ 120 < age then
      [(("dateOfBirth"), ("Age must be between 5 and 120 years"))] else []

/-- The closed food vocabulary of the routes file and of the Mongoose
schema enum. -/
def validFoods : List String := [("Pizza"), ("Pap and Wors"), ("Other"), ("Pasta")]

/-- `body('favoriteFoods').isArray({min:1}).custom(foods => foods.every(...))`.
A non-array (or absent) value fails `isArray` and makes the custom check
throw (`undefined.every`), collecting both messages; an empty array fails
only `isArray` since `[].every` is vacuously true. -/
def validateFavoriteFoods (o : Option (List String)) : List FieldError :=
  match o with
  | none =>
    [(("favoriteFoods"), ("Please select at least one favorite food")),
     (("favoriteFoods"), ("Invalid food selection"))]
  | some l =>
    (if l.length < 1 then
      [(("favoriteFoods"), ("Please select at least one favorite food"))] else []) ++
    (if !(l.all (fun food => validFoods.contains food)) then
      [(("favoriteFoods"), ("Invalid food selection"))] else [])

/-- `body('ratings.X').notEmpty().isInt({min:1,max:5})`.  An absent field is
the empty string for both validators; a numeric value is stringified, so
`notEmpty` always passes on it and `isInt` succeeds exactly on integers in
[1,5]. -/
def validateRating (name reqMsg : String) (r : RatingInput) : List FieldError :=
  match r with
  | .missing => [(name, reqMsg), (name, ("Rating must be between 1-5"))]
  | .nonNumeric s =>
    (if s = ("") then [(name, reqMsg)] else []) ++
    [(name, ("Rating must be between 1-5"))]
  | .num q =>
    if ¬ (q.num % q.den = 0 ∧ q.den ≤ q.num ∧ q.num ≤ 5 * q.den) then
      [(name, ("Rating must be between 1-5"))] else []

/-- The full validation middleware chain of the routes file: every field
chain runs, and the error handler reports the concatenation of the
per-field errors in the order the chains are declared. -/
def validateSurvey (today : SimpleDate) (x : RawInput) : List FieldError :=
  validateFullName x.fullName ++
  validateEmail x.email ++
  validateContactNumber x.contactNumber ++
  validateDateOfBirth today x.dateOfBirth ++
  validateFavoriteFoods x.favoriteFoods ++
  validateRating ("ratings.eatOut") ("Eating out rating is required") x.eatOut ++
  validateRating ("ratings.watchMovies") ("Movies rating is required") x.watchMovies ++
  validateRating ("ratings.watchTV") ("TV rating is required") x.watchTV ++
  validateRating ("ratings.listenRadio") ("Radio rating is required") x.listenRadio

/-- The ratings sub-document of the Mongoose `surveySchema`. -/
structure Ratings where
  eatOut : ℤ
  watchMovies : ℤ
  watchTV : ℤ
  listenRadio : ℤ
deriving DecidableEq

/-- A persisted survey document (`models/Survey.js`). -/
structure Survey where
  fullName : String
  email : String
  contactNumber : String
  dateOfBirth : SimpleDate
  favoriteFoods : List String
  ratings : Ratings
deriving DecidableEq

/-- The numeric value a rating field carries once validation has accepted
it (Mongoose casts the value to a Number). -/
def ratingVal (r : RatingInput) : ℤ :=
  match r with
  | .num q => Int.fdiv q.num q.den
  | _ => 0

/-- The document Mongoose builds from the (sanitizer-mutated) request body:
string fields are the trimmed submissions, the email additionally
normalized.  Only reached when validation yields no errors. -/
def normalizeRecord (x : RawInput) : Survey :=
  { fullName := trimModel (x.fullName.getD (""))
    email := normalizeEmailModel (trimModel (x.email.getD ("")))
    contactNumber := trimModel (x.contactNumber.getD (""))
    dateOfBirth := match x.dateOfBirth with
      | .parsed d => d
      | _ => ⟨0, 0, 0⟩
    favoriteFoods := x.favoriteFoods.getD []
    ratings :=
      { eatOut := ratingVal x.eatOut
        watchMovies := ratingVal x.watchMovies
        watchTV := ratingVal x.watchTV
        listenRadio := ratingVal x.listenRadio } }

/-- Outcome of `POST /submit`: 201 with the record saved, or the 400
response of the validation error handler. -/
inductive SubmitResponse where
  | created : SubmitResponse
  | badRequest : List FieldError → SubmitResponse
deriving DecidableEq

/-- The submission path: the route runs `validateSurvey` and only on an
empty error list reaches `surveyController.submitSurvey`, which saves the
document into the store. -/
def submitSurvey (today : SimpleDate) (x : RawInput) (store : List Survey) :
    SubmitResponse × List Survey :=
  let errs := validateSurvey today x
  if errs = [] then (.created, store ++ [normalizeRecord x])
  else (.badRequest errs, store)

/-- `Math.max(...ages)` for the non-empty list of ages. -/
def listMax : List ℤ → ℤ
  | [] => 0
  | a :: l => l.foldl max a

/-- `Math.min(...ages)` for the non-empty list of ages. -/
def listMin : List ℤ → ℤ
  | [] => 0
  | a :: l => l.foldl min a

/-- `2 ^ k` as a fraction, for an integer exponent. -/
def pow2 (k : ℤ) : Frac :=
  if 0 ≤ k then ⟨(Nat.pow 2 k.toNat : ℕ), 1⟩ else ⟨1, (Nat.pow 2 (-k).toNat : ℕ)⟩

/-- Binary exponent search: starting from the invariant `p = 2 ^ e`, find
`e` with `2 ^ e ≤ q < 2 ^ (e + 1)` for a positive fraction `q`.  The fuel
of 2200 covers the whole double exponent range. -/
def qexpPos : ℕ → Frac → Frac → ℤ → ℤ
  | 0, _, _, e => e
  | fuel + 1, q, p, e =>
    if fle (fmul (intF 2) p) q then qexpPos fuel q (fmul (intF 2) p) (e + 1)
    else if flt q p then qexpPos fuel q (fmul p ⟨1, 2⟩) (e - 1)
    else e

/-- Round a positive fraction to the nearest IEEE-754 binary64 value
(round-to-nearest, ties-to-even), ignoring overflow and subnormals, which
never arise in this program's value range. -/
def roundPos (q : Frac) : Frac :=
  let e := qexpPos 2200 q (intF 1) 0
  let scaled := fmul q (pow2 (52 - e))
  let n0 := ffloor scaled
  let r := fsub scaled (intF n0)
  let m :=
    if flt ⟨1, 2⟩ r then n0 + 1
    else if flt r ⟨1, 2⟩ then n0
    else if n0 % 2 = 0 then n0 else n0 + 1
  fmul (intF m) (pow2 (e - 52))

/-- Correctly rounded conversion of an exact rational result to a double:
this models one JavaScript arithmetic operation on exact operands. -/
def roundDouble (q : Frac) : Frac :=
  if q.num = 0 then intF 0
  else if 0 < q.num then roundPos q
  else fneg (roundPos (fneg q))

/-- One decimal digit as a character. -/
def digitChar (n : ℕ) : Char :=
  match n with
  | 0 => '0' | 1 => '1' | 2 => '2' | 3 => '3' | 4 => '4'
  | 5 => '5' | 6 => '6' | 7 => '7' | 8 => '8' | 9 => '9'
  | _ => '0'

/-- Decimal digits of a natural number, most significant first; the fuel
(one more than the number itself) always suffices. -/
def natDigitsAux : ℕ → ℕ → List Char
  | 0, _ => []
  | fuel + 1, n =>
    if n < 10 then [digitChar n]
    else natDigitsAux fuel (n / 10) ++ [digitChar (n % 10)]

/-- Decimal representation of a natural number. -/
def natDigits (n : ℕ) : List Char := natDigitsAux (n + 1) n

/-- Decimal representation of a natural number, as a string. -/
def natDigitsStr (n : ℕ) : String := ⟨natDigits n⟩

/-- ECMAScript `Number.prototype.toFixed(1)` for |x| < 10^21: split off the
sign, pick the integer `n` closest to `10 * |x|` (ties to the larger `n`),
and print `n` with the last digit after a decimal point. -/
def toFixed1Str (x : Frac) : String :=
  let y := if x.num < 0 then fneg x else x
  let n := (ffloor (fadd (fmul (intF 10) y) ⟨1, 2⟩)).toNat
  (if x.num < 0 then ("-") else ("")) ++ natDigitsStr (n / 10) ++ (".") ++ natDigitsStr (n % 10)

/-- Modelled from the spec's words (rounding policy): the exact rational
value rounded half-away-from-zero to exactly one decimal digit, printed
with fixed one-decimal precision.  Used to compare the aggregation code's
output against the specified rounding. -/
def specHalfAwayFixed1 (q : Frac) : String :=
  let y := if q.num < 0 then fneg q else q
  let n := (ffloor (fadd (fmul (intF 10) y) ⟨1, 2⟩)).toNat
  (if q.num < 0 then ("-") else ("")) ++ natDigitsStr (n / 10) ++ (".") ++ natDigitsStr (n % 10)

/-- `true` exactly when the string ends in a decimal point followed by a
single digit and contains no other decimal point: the shape of a fixed
one-decimal numeric string. -/
def hasOneDecimal (s : String) : Bool :=
  match s.data.reverse with
  | c :: d :: rest => c.isDigit && d = '.' && rest.all (fun x => x != '.')
  | _ => false

/-- `surveys.map(s => ...)`: the ages the aggregation derives from the
stored dates of birth. -/
def agesOf (today : SimpleDate) (surveys : List Survey) : List ℤ :=
  surveys.map (fun s => computeAgeStats today s.dateOfBirth)

/-- The statistics object `getSurveyStats` responds with.  The seven
percentage/average fields are strings (they are produced by `toFixed(1)`),
the count and the two age extremes are numbers. -/
structure SurveyStats where
  totalSurveys : ℕ
  averageAge : String
  oldest : ℤ
  youngest : ℤ
  pizzaLoversPercentage : String
  papWorsPercentage : String
  averageEatOutRating : String
  averageWatchMoviesRating : String
  averageWatchTVRating : String
  averageListenRadioRating : String
deriving DecidableEq

/-- The statistics computation of `getSurveyStats` on a non-empty survey
list: integer sums are exact in doubles in this program's range; each
division, and the multiplication by 100, is one correctly rounded double
operation; every average/percentage is then formatted by `toFixed(1)`. -/
def statsOf (today : SimpleDate) (surveys : List Survey) : SurveyStats :=
  let ages := agesOf today surveys
  let totalSurveys := surveys.length
  let pizzaCount := (surveys.filter (fun s => s.favoriteFoods.contains ("Pizza"))).length
  let papWorsCount := (surveys.filter (fun s => s.favoriteFoods.contains ("Pap and Wors"))).length
  { totalSurveys := totalSurveys
    averageAge := toFixed1Str (roundDouble (fdivF (intF ages.sum) (intF totalSurveys)))
    oldest := listMax ages
    youngest := listMin ages
    pizzaLoversPercentage :=
      toFixed1Str (roundDouble (fmul (roundDouble (fdivF (intF pizzaCount) (intF totalSurveys))) (intF 100)))
    papWorsPercentage :=
      toFixed1Str (roundDouble (fmul (roundDouble (fdivF (intF papWorsCount) (intF totalSurveys))) (intF 100)))
    averageEatOutRating :=
      toFixed1Str (roundDouble (fdivF (intF (surveys.map (fun s => s.ratings.eatOut)).sum) (intF totalSurveys)))
    averageWatchMoviesRating :=
      toFixed1Str (roundDouble (fdivF (intF (surveys.map (fun s => s.ratings.watchMovies)).sum) (intF totalSurveys)))
    averageWatchTVRating :=
      toFixed1Str (roundDouble (fdivF (intF (surveys.map (fun s => s.ratings.watchTV)).sum) (intF totalSurveys)))
    averageListenRadioRating :=
      toFixed1Str (roundDouble (fdivF (intF (surveys.map (fun s => s.ratings.listenRadio)).sum) (intF totalSurveys))) }

/-- Outcome of `GET /stats`: either the distinct `No Surveys Available`
message or the statistics object. -/
inductive StatsResponse where
  | noSurveys : StatsResponse
  | stats : SurveyStats → StatsResponse

/-- The aggregation entry point of `surveyController.js`:
`if (surveys.length === 0) return res.json({message: 'No Surveys Available'})`,
otherwise the computed statistics. -/
def getSurveyStats (today : SimpleDate) (surveys : List Survey) : StatsResponse :=
  if surveys.length = 0 then .noSurveys else .stats (statsOf today surveys)

/-- The nine validated field paths, in the order their validation chains
are declared in the routes file (this is the order the error handler
reports errors in). -/
def fieldNames : List String :=
  [("fullName"), ("email"), ("contactNumber"), ("dateOfBirth"), ("favoriteFoods"),
   ("ratings.eatOut"), ("ratings.watchMovies"), ("ratings.watchTV"), ("ratings.listenRadio")]

/-- The errors a single named field chain contributes for a candidate
input (and `[]` for a string that is not a validated field path). -/
def fieldErrorsOf (today : SimpleDate) (x : RawInput) (f : String) : List FieldError :=
  if f = ("fullName") then validateFullName x.fullName
  else if f = ("email") then validateEmail x.email
  else if f = ("contactNumber") then validateContactNumber x.contactNumber
  else if f = ("dateOfBirth") then validateDateOfBirth today x.dateOfBirth
  else if f = ("favoriteFoods") then validateFavoriteFoods x.favoriteFoods
  else if f = ("ratings.eatOut") then
    validateRating ("ratings.eatOut") ("Eating out rating is required") x.eatOut
  else if f = ("ratings.watchMovies") then
    validateRating ("ratings.watchMovies") ("Movies rating is required") x.watchMovies
  else if f = ("ratings.watchTV") then
    validateRating ("ratings.watchTV") ("TV rating is required") x.watchTV
  else if f = ("ratings.listenRadio") then
    validateRating ("ratings.listenRadio") ("Radio rating is required") x.listenRadio
  else []

/-- A submission template in which every field other than the date of
birth is valid. -/
def goodInput (dob : SimpleDate) : RawInput :=
  { fullName := some ("Jane Doe")
    email := some ("user@example.com")
    contactNumber := some ("0821234567")
    dateOfBirth := .parsed dob
    favoriteFoods := some [("Pizza")]
    eatOut := .num ⟨3, 1⟩
    watchMovies := .num ⟨4, 1⟩
    watchTV := .num ⟨2, 1⟩
    listenRadio := .num ⟨5, 1⟩ }

/-- A submission with every field absent. -/
def emptyInput : RawInput :=
  ⟨none, none, none, .missing, none, .missing, .missing, .missing, .missing⟩

/-- A submission that is valid except that its contact number carries a
leading `+` sign: ten characters, one of which is not a decimal digit. -/
def plusContactInput : RawInput :=
  { goodInput ⟨1990, 1, 1⟩ with contactNumber := some ("+123456789") }

/-- A stored survey document with the given date of birth and favourite
foods (all ratings 3). -/
def sampleSurvey (dob : SimpleDate) (foods : List String) : Survey :=
  { fullName := ("Jane Doe")
    email := ("user@example.com")
    contactNumber := ("0821234567")
    dateOfBirth := dob
    favoriteFoods := foods
    ratings := ⟨3, 3, 3, 3⟩ }

/-- Reference date used by the concrete aggregation examples. -/
def exToday : SimpleDate := ⟨2025, 6, 15⟩

/-- Three records whose ages relative to `exToday` are 18, 78 and 32. -/
def exRecs3 : List Survey :=
  [sampleSurvey ⟨2007, 1, 1⟩ [("Pizza")],
   sampleSurvey ⟨1947, 1, 1⟩ [("Pasta")],
   sampleSurvey ⟨1993, 1, 1⟩ [("Other")]]

/-- Four records of which exactly two list Pizza among their favourite
foods. -/
def exRecs4 : List Survey :=
  [sampleSurvey ⟨1990, 1, 1⟩ [("Pizza")],
   sampleSurvey ⟨1990, 1, 1⟩ [("Pizza"), ("Pasta")],
   sampleSurvey ⟨1990, 1, 1⟩ [("Pasta")],
   sampleSurvey ⟨1990, 1, 1⟩ [("Other")]]

/-- Twenty records whose ages relative to `exToday` are nineteen times 5
and once 6, so that the exact mean age is 101/20 = 5.05. -/
def cexRecsAvg : List Survey :=
  List.replicate 19 (sampleSurvey ⟨2020, 1, 1⟩ [("Pizza")]) ++
  [sampleSurvey ⟨2019, 1, 1⟩ [("Pizza")]]

/-- Eighty records of which exactly 23 list Pizza, so that the exact
Pizza percentage is 2300/80 = 28.75. -/
def cexRecsPct : List Survey :=
  List.replicate 23 (sampleSurvey ⟨1990, 1, 1⟩ [("Pizza")]) ++
  List.replicate 57 (sampleSurvey ⟨1990, 1, 1⟩ [("Pasta")])

/-! ### Helper lemmas -/

theorem foldl_max_eq_or_mem : ∀ (l : List ℤ) (a : ℤ), l.foldl max a = a ∨ l.foldl max a ∈ l := by
  intro l
  induction l with
  | nil => intro a; left; rfl
  | cons b l ih =>
    intro a
    have e : (b :: l).foldl max a = l.foldl max (max a b) := rfl
    rcases ih (max a b) with h | h
    · rcases max_choice a b with hm | hm
      · left; rw [e, h, hm]
      · right; rw [e, h, hm]; exact List.mem_cons_self b l
    · right; rw [e]; exact List.mem_cons_of_mem b h

theorem le_foldl_max : ∀ (l : List ℤ) (a : ℤ), a ≤ l.foldl max a ∧ ∀ x ∈ l, x ≤ l.foldl max a := by
  intro l
  induction l with
  | nil => intro a; exact ⟨le_refl a, by simp⟩
  | cons b l ih =>
    intro a
    have e : (b :: l).foldl max a = l.foldl max (max a b) := rfl
    obtain ⟨h1, h2⟩ := ih (max a b)
    refine ⟨?_, ?_⟩
    · rw [e]; exact le_trans (le_max_left a b) h1
    · intro x hx
      rw [e]
      rcases List.mem_cons.mp hx with rfl | hx2
      · exact le_trans (le_max_right a x) h1
      · exact h2 x hx2

theorem foldl_min_eq_or_mem : ∀ (l : List ℤ) (a : ℤ), l.foldl min a = a ∨ l.foldl min a ∈ l := by
  intro l
  induction l with
  | nil => intro a; left; rfl
  | cons b l ih =>
    intro a
    have e : (b :: l).foldl min a = l.foldl min (min a b) := rfl
    rcases ih (min a b) with h | h
    · rcases min_choice a b with hm | hm
      · left; rw [e, h, hm]
      · right; rw [e, h, hm]; exact List.mem_cons_self b l
    · right; rw [e]; exact List.mem_cons_of_mem b h

theorem foldl_min_le : ∀ (l : List ℤ) (a : ℤ), l.foldl min a ≤ a ∧ ∀ x ∈ l, l.foldl min a ≤ x := by
  intro l
  induction l with
  | nil => intro a; exact ⟨le_refl a, by simp⟩
  | cons b l ih =>
    intro a
    have e : (b :: l).foldl min a = l.foldl min (min a b) := rfl
    obtain ⟨h1, h2⟩ := ih (min a b)
    refine ⟨?_, ?_⟩
    · rw [e]; exact le_trans h1 (min_le_left a b)
    · intro x hx
      rw [e]
      rcases List.mem_cons.mp hx with rfl | hx2
      · exact le_trans h1 (min_le_right a x)
      · exact h2 x hx2

theorem listMax_spec (l : List ℤ) (h : l ≠ []) : listMax l ∈ l ∧ ∀ x ∈ l, x ≤ listMax l := by
  cases l with
  | nil => cases h rfl
  | cons a l =>
    have e : listMax (a :: l) = l.foldl max a := rfl
    refine ⟨?_, ?_⟩
    · rcases foldl_max_eq_or_mem l a with h1 | h1
      · rw [e, h1]; exact List.mem_cons_self a l
      · rw [e]; exact List.mem_cons_of_mem a h1
    · intro x hx
      rw [e]
      rcases List.mem_cons.mp hx with rfl | hx2
      · exact (le_foldl_max l x).1
      · exact (le_foldl_max l a).2 x hx2

theorem listMin_spec (l : List ℤ) (h : l ≠ []) : listMin l ∈ l ∧ ∀ x ∈ l, listMin l ≤ x := by
  cases l with
  | nil => cases h rfl
  | cons a l =>
    have e : listMin (a :: l) = l.foldl min a := rfl
    refine ⟨?_, ?_⟩
    · rcases foldl_min_eq_or_mem l a with h1 | h1
      · rw [e, h1]; exact List.mem_cons_self a l
      · rw [e]; exact List.mem_cons_of_mem a h1
    · intro x hx
      rw [e]
      rcases List.mem_cons.mp hx with rfl | hx2
      · exact (foldl_min_le l x).1
      · exact (foldl_min_le l a).2 x hx2

theorem digitChar_isDigit (n : ℕ) : (digitChar n).isDigit = true := by
  unfold digitChar
  split <;> decide

theorem mem_natDigitsAux_isDigit :
    ∀ (fuel n : ℕ) (c : Char), c ∈ natDigitsAux fuel n → c.isDigit = true := by
  intro fuel
  induction fuel with
  | zero => intro n c h; simp [natDigitsAux] at h
  | succ fuel ih =>
    intro n c h
    rw [natDigitsAux] at h
    by_cases hn : n < 10
    · rw [if_pos hn] at h
      have : c = digitChar n := List.mem_singleton.mp h
      rw [this]; exact digitChar_isDigit n
    · rw [if_neg hn] at h
      rcases List.mem_append.mp h with h1 | h1
      · exact ih _ _ h1
      · have : c = digitChar (n % 10) := List.mem_singleton.mp h1
        rw [this]; exact digitChar_isDigit _

theorem natDigits_single (n : ℕ) (h : n < 10) : natDigits n = [digitChar n] := by
  unfold natDigits
  rw [natDigitsAux, if_pos h]

theorem strData_append (s t : String) : (s ++ t).data = s.data ++ t.data := rfl

theorem digit_ne_dot (c : Char) (h : c.isDigit = true) : (c != '.') = true := by
  rcases eq_or_ne c '.' with rfl | hne
  · exact absurd h (by decide)
  · exact bne_iff_ne.mpr hne

theorem hasOneDecimal_parts (sign : String) (a b : ℕ) (hb : b < 10)
    (hsign : ∀ c ∈ sign.data, c ≠ '.') :
    hasOneDecimal (sign ++ natDigitsStr a ++ (".") ++ natDigitsStr b) = true := by
  have hd : natDigits b = [digitChar b] := natDigits_single b hb
  have hrev : (sign ++ natDigitsStr a ++ (".") ++ natDigitsStr b).data.reverse
      = digitChar b :: '.' :: ((natDigits a).reverse ++ sign.data.reverse) := by
    simp [strData_append, natDigitsStr, hd]
  unfold hasOneDecimal
  rw [hrev]
  simp only [digitChar_isDigit, Bool.true_and, decide_eq_true_eq, List.all_eq_true]
  simp only [eq_self_iff_true, decide_true_eq_true, Bool.true_and, List.all_eq_true]
  intro c hc
  rcases List.mem_append.mp hc with h1 | h1
  · exact digit_ne_dot c (mem_natDigitsAux_isDigit _ _ c (List.mem_reverse.mp h1))
  · exact bne_iff_ne.mpr (hsign c (List.mem_reverse.mp h1))

theorem hasOneDecimal_toFixed1Str (x : Frac) : hasOneDecimal (toFixed1Str x) = true := by
  unfold toFixed1Str
  apply hasOneDecimal_parts
  · exact Nat.mod_lt _ (by norm_num)
  · intro c hc
    by_cases hx : x.num < 0
    · rw [if_pos hx] at hc
      have : c = '-' := List.mem_singleton.mp hc
      rw [this]; decide
    · rw [if_neg hx] at hc
      simp at hc

theorem key_validateFullName (o : Option String) (e : FieldError)
    (h : e ∈ validateFullName o) : e.1 = ("fullName") := by
  simp only [validateFullName] at h
  rcases List.mem_append.mp h with h1 | h1 <;> (split at h1 <;> simp_all)

theorem key_validateEmail (o : Option String) (e : FieldError)
    (h : e ∈ validateEmail o) : e.1 = ("email") := by
  simp only [validateEmail] at h
  rcases List.mem_append.mp h with h1 | h1 <;> (split at h1 <;> simp_all)

theorem key_validateContactNumber (o : Option String) (e : FieldError)
    (h : e ∈ validateContactNumber o) : e.1 = ("contactNumber") := by
  simp only [validateContactNumber] at h
  rcases List.mem_append.mp h with h1 | h1
  · rcases List.mem_append.mp h1 with h2 | h2 <;> (split at h2 <;> simp_all)
  · split at h1 <;> simp_all

theorem key_validateDateOfBirth (today : SimpleDate) (dob : DobInput) (e : FieldError)
    (h : e ∈ validateDateOfBirth today dob) : e.1 = ("dateOfBirth") := by
  cases dob <;> simp only [validateDateOfBirth] at h
  · rcases List.mem_cons.mp h with rfl | h1
    · rfl
    · rw [List.mem_singleton.mp h1]
  · rw [List.mem_singleton.mp h]
  · split at h
    · rw [List.mem_singleton.mp h]
    · simp at h

theorem key_validateFavoriteFoods (o : Option (List String)) (e : FieldError)
    (h : e ∈ validateFavoriteFoods o) : e.1 = ("favoriteFoods") := by
  cases o <;> simp only [validateFavoriteFoods] at h
  · rcases List.mem_cons.mp h with rfl | h1
    · rfl
    · rw [List.mem_singleton.mp h1]
  · rcases List.mem_append.mp h with h1 | h1 <;>
      (split at h1 <;> first | rw [List.mem_singleton.mp h1] | simp at h1)

theorem key_validateRating (name reqMsg : String) (r : RatingInput) (e : FieldError)
    (h : e ∈ validateRating name reqMsg r) : e.1 = name := by
  cases r <;> simp only [validateRating] at h
  · rcases List.mem_cons.mp h with rfl | h1
    · rfl
    · rw [List.mem_singleton.mp h1]
  · rcases List.mem_append.mp h with h1 | h1
    · split at h1
      · rw [List.mem_singleton.mp h1]
      · simp at h1
    · rw [List.mem_singleton.mp h1]
  · split at h
    · rw [List.mem_singleton.mp h]
    · simp at h

theorem filter_key (l : List FieldError) (c f : String) (hl : ∀ e ∈ l, e.1 = c) :
    l.filter (fun e => e.1 == f) = if f = c then l else [] := by
  induction l with
  | nil => simp
  | cons a l ih =>
    have ha : a.1 = c := hl a (List.mem_cons_self a l)
    have hl2 : ∀ e ∈ l, e.1 = c := fun e he => hl e (List.mem_cons_of_mem a he)
    rw [List.filter_cons, ih hl2, ha]
    by_cases hcf : f = c
    · subst hcf; simp
    · simp [hcf, Ne.symm hcf]

/-! ### Claim theorems -/

/-- Claim C6: for every dateOfBirth and every reference date, the age
computed by the Validator's date-of-birth rule and the age computed by the
Aggregator for the same record are equal: the two separately implemented
age computations never disagree. -/
theorem claim_C6 (today birth : SimpleDate) :
    computeAgeValidator today birth = computeAgeStats today birth := rfl

/-- Claim C5: when the record set is empty, the aggregation entry point
returns the distinct empty-state marker (`No Surveys Available`) and never
a statistics summary object. -/
theorem claim_C5 (today : SimpleDate) :
    getSurveyStats today [] = StatsResponse.noSurveys ∧
    ∀ S : SurveyStats, getSurveyStats today [] ≠ StatsResponse.stats S := by
  refine ⟨rfl, ?_⟩
  intro S h
  simp [getSurveyStats] at h

/-- Claim C2, code-bug evidence: the contact number `+123456789` has
exactly 10 characters but contains a character that is not a decimal
digit, yet the validation chain accepts it (the default `isNumeric` check
admits a sign and a decimal point); lengths 9 and 11 are rejected and a
10-digit number is accepted, as the claim states. -/
theorem claim_C2 :
    validateContactNumber (some ("+123456789")) = [] ∧
    (("+123456789" : String)).length = 10 ∧
    ((("+123456789" : String)).data.all (fun c => c.isDigit)) = false ∧
    validateContactNumber (some ("082123456")) ≠ [] ∧
    validateContactNumber (some ("08212345678")) ≠ [] ∧
    validateContactNumber (some ("0821234567")) = [] := by
  refine ⟨by decide, by decide, by decide, by decide, by decide, by decide⟩

/-- Claim C7, code-bug evidence: a submission that is valid in every other
field but carries the contact number `+123456789` passes the whole
validation chain and is persisted, so the store ends up containing a
record whose contact number is not made of 10 decimal digits. -/
theorem claim_C7 :
    (submitSurvey exToday plusContactInput []).1 = SubmitResponse.created ∧
    (submitSurvey exToday plusContactInput []).2 = [normalizeRecord plusContactInput] ∧
    (normalizeRecord plusContactInput).contactNumber = ("+123456789") ∧
    ((normalizeRecord plusContactInput).contactNumber.data.all (fun c => c.isDigit)) = false := by
  refine ⟨by decide, by decide, by decide, by decide⟩

/-- Claim C3: the computed age is the whole-year difference, decremented
by one exactly when the reference month/day precedes the birth month/day;
birth 2020-06-15 evaluated on 2025-06-14 gives 4, and on 2025-06-15 or any
later day of 2025 gives 5. -/
theorem claim_C3 (today birth : SimpleDate) (m d : ℤ)
    (h : 6 < m ∨ (m = 6 ∧ 15 ≤ d)) :
    (computeAgeValidator today birth =
      today.year - birth.year -
        (if today.month < birth.month ∨ (today.month = birth.month ∧ today.day < birth.day)
         then 1 else 0)) ∧
    computeAgeValidator ⟨2025, 6, 14⟩ ⟨2020, 6, 15⟩ = 4 ∧
    computeAgeValidator ⟨2025, 6, 15⟩ ⟨2020, 6, 15⟩ = 5 ∧
    computeAgeStats ⟨2025, 6, 15⟩ ⟨2020, 6, 15⟩ = 5 ∧
    computeAgeValidator ⟨2025, m, d⟩ ⟨2020, 6, 15⟩ = 5 := by
  refine ⟨?_, by decide, by decide, by decide, ?_⟩
  · simp only [computeAgeValidator]
    split_ifs with h1 h2 <;> omega
  · have e : computeAgeValidator ⟨2025, m, d⟩ ⟨2020, 6, 15⟩
        = if m - 6 < 0 ∨ (m - 6 = 0 ∧ d < 15) then 4 else 5 := rfl
    rw [e]
    split_ifs with h1 <;> omega

/-- Witness for claim C3 at a concrete reference date and birth date. -/
theorem claim_C3_witness :
    ((6 : ℤ) < 7 ∨ ((7 : ℤ) = 6 ∧ (15 : ℤ) ≤ 1)) ∧
    ((computeAgeValidator ⟨2026, 3, 2⟩ ⟨2001, 5, 4⟩ =
        (2026 : ℤ) - 2001 - (if (3 : ℤ) < 5 ∨ ((3 : ℤ) = 5 ∧ (2 : ℤ) < 4) then 1 else 0)) ∧
      computeAgeValidator ⟨2025, 6, 14⟩ ⟨2020, 6, 15⟩ = 4 ∧
      computeAgeValidator ⟨2025, 6, 15⟩ ⟨2020, 6, 15⟩ = 5 ∧
      computeAgeStats ⟨2025, 6, 15⟩ ⟨2020, 6, 15⟩ = 5 ∧
      computeAgeValidator ⟨2025, 7, 1⟩ ⟨2020, 6, 15⟩ = 5) :=
  ⟨by decide, claim_C3 ⟨2026, 3, 2⟩ ⟨2001, 5, 4⟩ 7 1 (by decide)⟩

/-- Shared evaluation: in the all-valid template, every chain except the
date-of-birth one contributes no error. -/
theorem validateSurvey_goodInput (today : SimpleDate) (d : SimpleDate) :
    validateSurvey today (goodInput d) = validateDateOfBirth today (.parsed d) ++ [] := by
  have h1 : validateFullName (some ("Jane Doe")) = [] := by decide
  have h2 : validateEmail (some ("user@example.com")) = [] := by decide
  have h3 : validateContactNumber (some ("0821234567")) = [] := by decide
  have h4 : validateFavoriteFoods (some [("Pizza")]) = [] := by decide
  have h5 : validateRating ("ratings.eatOut") ("Eating out rating is required")
      (.num ⟨3, 1⟩) = [] := by decide
  have h6 : validateRating ("ratings.watchMovies") ("Movies rating is required")
      (.num ⟨4, 1⟩) = [] := by decide
  have h7 : validateRating ("ratings.watchTV") ("TV rating is required")
      (.num ⟨2, 1⟩) = [] := by decide
  have h8 : validateRating ("ratings.listenRadio") ("Radio rating is required")
      (.num ⟨5, 1⟩) = [] := by decide
  simp only [validateSurvey, goodInput]
  rw [h1, h2, h3, h4, h5, h6, h7, h8]
  simp

/-- Claim C8: with all other fields valid, a derived age of exactly 5 or
exactly 120 is accepted, while 4 or 121 is rejected with the age-range
error on the dateOfBirth field. -/
theorem claim_C8 (today d5 d120 d4 d121 : SimpleDate)
    (h5 : computeAgeValidator today d5 = 5) (h120 : computeAgeValidator today d120 = 120)
    (h4 : computeAgeValidator today d4 = 4) (h121 : computeAgeValidator today d121 = 121) :
    validateSurvey today (goodInput d5) = [] ∧
    validateSurvey today (goodInput d120) = [] ∧
    validateSurvey today (goodInput d4) =
      [(("dateOfBirth"), ("Age must be between 5 and 120 years"))] ∧
    validateSurvey today (goodInput d121) =
      [(("dateOfBirth"), ("Age must be between 5 and 120 years"))] := by
  refine ⟨?_, ?_, ?_, ?_⟩ <;>
    rw [validateSurvey_goodInput, List.append_nil] <;>
    simp [validateDateOfBirth, h5, h120, h4, h121]

/-- Witness for claim C8 at concrete boundary dates. -/
theorem claim_C8_witness :
    (computeAgeValidator ⟨2025, 6, 15⟩ ⟨2020, 6, 15⟩ = 5 ∧
     computeAgeValidator ⟨2025, 6, 15⟩ ⟨1905, 6, 15⟩ = 120 ∧
     computeAgeValidator ⟨2025, 6, 15⟩ ⟨2020, 6, 16⟩ = 4 ∧
     computeAgeValidator ⟨2025, 6, 15⟩ ⟨1904, 6, 15⟩ = 121) ∧
    (validateSurvey ⟨2025, 6, 15⟩ (goodInput ⟨2020, 6, 15⟩) = [] ∧
     validateSurvey ⟨2025, 6, 15⟩ (goodInput ⟨1905, 6, 15⟩) = [] ∧
     validateSurvey ⟨2025, 6, 15⟩ (goodInput ⟨2020, 6, 16⟩) =
       [(("dateOfBirth"), ("Age must be between 5 and 120 years"))] ∧
     validateSurvey ⟨2025, 6, 15⟩ (goodInput ⟨1904, 6, 15⟩) =
       [(("dateOfBirth"), ("Age must be between 5 and 120 years"))]) :=
  ⟨⟨by decide, by decide, by decide, by decide⟩,
   claim_C8 ⟨2025, 6, 15⟩ ⟨2020, 6, 15⟩ ⟨1905, 6, 15⟩ ⟨2020, 6, 16⟩ ⟨1904, 6, 15⟩
     (by decide) (by decide) (by decide) (by decide)⟩

/-- Claim C1 (amended): the statistics of a non-empty record set report
`oldest`/`youngest` as the exact maximum/minimum age, and each of the
seven percentage/average fields — `averageAge`, the two food percentages
and the four rating averages — as `toFixed(1)` of the double-precision
computed value (the sum-by-count quotient, or the `(count/total)*100`
product; half-away-from-zero on the stored double, which can differ from
exact-rational half-away rounding at representation boundaries); for ages
[18, 78, 32] this yields youngest 18, oldest 78 and averageAge 42.7. -/
theorem claim_C1 (today : SimpleDate) (rs : List Survey) (h : rs ≠ []) :
    getSurveyStats today rs = StatsResponse.stats (statsOf today rs) ∧
    (statsOf today rs).oldest ∈ agesOf today rs ∧
    (∀ a ∈ agesOf today rs, a ≤ (statsOf today rs).oldest) ∧
    (statsOf today rs).youngest ∈ agesOf today rs ∧
    (∀ a ∈ agesOf today rs, (statsOf today rs).youngest ≤ a) ∧
    (statsOf today rs).averageAge =
      toFixed1Str (roundDouble (fdivF (intF (agesOf today rs).sum) (intF rs.length))) ∧
    (statsOf today rs).pizzaLoversPercentage =
      toFixed1Str (roundDouble (fmul (roundDouble (fdivF
        (intF (rs.filter (fun s => s.favoriteFoods.contains ("Pizza"))).length)
        (intF rs.length))) (intF 100))) ∧
    (statsOf today rs).papWorsPercentage =
      toFixed1Str (roundDouble (fmul (roundDouble (fdivF
        (intF (rs.filter (fun s => s.favoriteFoods.contains ("Pap and Wors"))).length)
        (intF rs.length))) (intF 100))) ∧
    (statsOf today rs).averageEatOutRating =
      toFixed1Str (roundDouble (fdivF (intF (rs.map (fun s => s.ratings.eatOut)).sum)
        (intF rs.length))) ∧
    (statsOf today rs).averageWatchMoviesRating =
      toFixed1Str (roundDouble (fdivF (intF (rs.map (fun s => s.ratings.watchMovies)).sum)
        (intF rs.length))) ∧
    (statsOf today rs).averageWatchTVRating =
      toFixed1Str (roundDouble (fdivF (intF (rs.map (fun s => s.ratings.watchTV)).sum)
        (intF rs.length))) ∧
    (statsOf today rs).averageListenRadioRating =
      toFixed1Str (roundDouble (fdivF (intF (rs.map (fun s => s.ratings.listenRadio)).sum)
        (intF rs.length))) ∧
    (statsOf exToday exRecs3).youngest = 18 ∧
    (statsOf exToday exRecs3).oldest = 78 ∧
    (statsOf exToday exRecs3).averageAge = ("42.7") := by
  have hags : agesOf today rs ≠ [] := by
    cases rs
    · cases h rfl
    · simp [agesOf]
  have hmax := listMax_spec (agesOf today rs) hags
  have hmin := listMin_spec (agesOf today rs) hags
  have e1 : (statsOf today rs).oldest = listMax (agesOf today rs) := rfl
  have e2 : (statsOf today rs).youngest = listMin (agesOf today rs) := rfl
  refine ⟨?_, ?_, ?_, ?_, ?_, rfl, rfl, rfl, rfl, rfl, rfl, rfl, by decide, by decide, by decide⟩
  · simp [getSurveyStats, List.length_eq_zero, h]
  · rw [e1]; exact hmax.1
  · intro a ha; rw [e1]; exact hmax.2 a ha
  · rw [e2]; exact hmin.1
  · intro a ha; rw [e2]; exact hmin.2 a ha

/-- Witness for claim C1 at the three-record example set. -/
theorem claim_C1_witness :
    exRecs3 ≠ [] ∧
    (getSurveyStats exToday exRecs3 = StatsResponse.stats (statsOf exToday exRecs3) ∧
     (statsOf exToday exRecs3).oldest ∈ agesOf exToday exRecs3 ∧
     (∀ a ∈ agesOf exToday exRecs3, a ≤ (statsOf exToday exRecs3).oldest) ∧
     (statsOf exToday exRecs3).youngest ∈ agesOf exToday exRecs3 ∧
     (∀ a ∈ agesOf exToday exRecs3, (statsOf exToday exRecs3).youngest ≤ a) ∧
     (statsOf exToday exRecs3).averageAge =
       toFixed1Str (roundDouble (fdivF (intF (agesOf exToday exRecs3).sum) (intF exRecs3.length))) ∧
     (statsOf exToday exRecs3).pizzaLoversPercentage =
       toFixed1Str (roundDouble (fmul (roundDouble (fdivF
         (intF (exRecs3.filter (fun s => s.favoriteFoods.contains ("Pizza"))).length)
         (intF exRecs3.length))) (intF 100))) ∧
     (statsOf exToday exRecs3).papWorsPercentage =
       toFixed1Str (roundDouble (fmul (roundDouble (fdivF
         (intF (exRecs3.filter (fun s => s.favoriteFoods.contains ("Pap and Wors"))).length)
         (intF exRecs3.length))) (intF 100))) ∧
     (statsOf exToday exRecs3).averageEatOutRating =
       toFixed1Str (roundDouble (fdivF (intF (exRecs3.map (fun s => s.ratings.eatOut)).sum)
         (intF exRecs3.length))) ∧
     (statsOf exToday exRecs3).averageWatchMoviesRating =
       toFixed1Str (roundDouble (fdivF (intF (exRecs3.map (fun s => s.ratings.watchMovies)).sum)
         (intF exRecs3.length))) ∧
     (statsOf exToday exRecs3).averageWatchTVRating =
       toFixed1Str (roundDouble (fdivF (intF (exRecs3.map (fun s => s.ratings.watchTV)).sum)
         (intF exRecs3.length))) ∧
     (statsOf exToday exRecs3).averageListenRadioRating =
       toFixed1Str (roundDouble (fdivF (intF (exRecs3.map (fun s => s.ratings.listenRadio)).sum)
         (intF exRecs3.length))) ∧
     (statsOf exToday exRecs3).youngest = 18 ∧
     (statsOf exToday exRecs3).oldest = 78 ∧
     (statsOf exToday exRecs3).averageAge = ("42.7")) :=
  ⟨by decide, claim_C1 exToday exRecs3 (by decide)⟩

/-- Claim C1 counterexample: on twenty records whose ages sum to 101 the
exact mean is 101/20 = 5.05, whose half-away-from-zero rounding to one
decimal is `5.1`; the aggregation code, which divides in double precision
and applies `toFixed(1)`, reports `5.0` instead. -/
theorem claim_C1_counterexample :
    (agesOf exToday cexRecsAvg).sum = 101 ∧
    cexRecsAvg.length = 20 ∧
    (statsOf exToday cexRecsAvg).averageAge = ("5.0") ∧
    specHalfAwayFixed1 (fdivF (intF 101) (intF 20)) = ("5.1") ∧
    (("5.0") : String) ≠ ("5.1") := by
  refine ⟨by decide, by decide, by decide, by decide, by decide⟩

/-- Claim C9 (amended): the Pizza (and Pap and Wors) percentage of a
non-empty record set is `toFixed(1)` of the double-precision value
`100 * count / total` (which agrees with exact one-decimal rounding except
at representation boundaries); with 2 of 4 records containing Pizza the
result is `50.0`. -/
theorem claim_C9 (today : SimpleDate) (rs : List Survey) (h : rs ≠ []) :
    getSurveyStats today rs = StatsResponse.stats (statsOf today rs) ∧
    (statsOf today rs).pizzaLoversPercentage =
      toFixed1Str (roundDouble (fmul (roundDouble (fdivF
        (intF (rs.filter (fun s => s.favoriteFoods.contains ("Pizza"))).length)
        (intF rs.length))) (intF 100))) ∧
    (statsOf today rs).papWorsPercentage =
      toFixed1Str (roundDouble (fmul (roundDouble (fdivF
        (intF (rs.filter (fun s => s.favoriteFoods.contains ("Pap and Wors"))).length)
        (intF rs.length))) (intF 100))) ∧
    (exRecs4.filter (fun s => s.favoriteFoods.contains ("Pizza"))).length = 2 ∧
    exRecs4.length = 4 ∧
    (statsOf exToday exRecs4).pizzaLoversPercentage = ("50.0") := by
  refine ⟨?_, rfl, rfl, by decide, by decide, by decide⟩
  · simp [getSurveyStats, List.length_eq_zero, h]

/-- Witness for claim C9 at the four-record example set. -/
theorem claim_C9_witness :
    exRecs4 ≠ [] ∧
    (getSurveyStats exToday exRecs4 = StatsResponse.stats (statsOf exToday exRecs4) ∧
     (statsOf exToday exRecs4).pizzaLoversPercentage =
       toFixed1Str (roundDouble (fmul (roundDouble (fdivF
         (intF (exRecs4.filter (fun s => s.favoriteFoods.contains ("Pizza"))).length)
         (intF exRecs4.length))) (intF 100))) ∧
     (statsOf exToday exRecs4).papWorsPercentage =
       toFixed1Str (roundDouble (fmul (roundDouble (fdivF
         (intF (exRecs4.filter (fun s => s.favoriteFoods.contains ("Pap and Wors"))).length)
         (intF exRecs4.length))) (intF 100))) ∧
     (exRecs4.filter (fun s => s.favoriteFoods.contains ("Pizza"))).length = 2 ∧
     exRecs4.length = 4 ∧
     (statsOf exToday exRecs4).pizzaLoversPercentage = ("50.0")) :=
  ⟨by decide, claim_C9 exToday exRecs4 (by decide)⟩

/-- Claim C9 counterexample: on eighty records of which 23 contain Pizza
the exact percentage is 28.75, whose half-away-from-zero rounding to one
decimal is `28.8`; the aggregation code, which computes
`(count / total) * 100` in double precision and applies `toFixed(1)`,
reports `28.7` instead. -/
theorem claim_C9_counterexample :
    (cexRecsPct.filter (fun s => s.favoriteFoods.contains ("Pizza"))).length = 23 ∧
    cexRecsPct.length = 80 ∧
    (statsOf exToday cexRecsPct).pizzaLoversPercentage = ("28.7") ∧
    specHalfAwayFixed1 (fdivF (intF 2300) (intF 80)) = ("28.8") ∧
    (("28.7") : String) ≠ ("28.8") := by
  refine ⟨by decide, by decide, by decide, by decide, by decide⟩

/-- Claim C10: in every non-empty statistics result the seven
percentage/average fields are decimal strings with exactly one digit after
the decimal point (the shape `toFixed(1)` produces), while `totalSurveys`,
`oldest` and `youngest` are numbers (the count and the integer age
extremes). -/
theorem claim_C10 (today : SimpleDate) (rs : List Survey) (h : rs ≠ []) :
    ∃ S : SurveyStats, getSurveyStats today rs = StatsResponse.stats S ∧
      hasOneDecimal S.averageAge = true ∧
      hasOneDecimal S.pizzaLoversPercentage = true ∧
      hasOneDecimal S.papWorsPercentage = true ∧
      hasOneDecimal S.averageEatOutRating = true ∧
      hasOneDecimal S.averageWatchMoviesRating = true ∧
      hasOneDecimal S.averageWatchTVRating = true ∧
      hasOneDecimal S.averageListenRadioRating = true ∧
      S.totalSurveys = rs.length ∧
      S.oldest = listMax (agesOf today rs) ∧
      S.youngest = listMin (agesOf today rs) := by
  refine ⟨statsOf today rs, ?_, ?_, ?_, ?_, ?_, ?_, ?_, ?_, rfl, rfl, rfl⟩
  · simp [getSurveyStats, List.length_eq_zero, h]
  · exact hasOneDecimal_toFixed1Str _
  · exact hasOneDecimal_toFixed1Str _
  · exact hasOneDecimal_toFixed1Str _
  · exact hasOneDecimal_toFixed1Str _
  · exact hasOneDecimal_toFixed1Str _
  · exact hasOneDecimal_toFixed1Str _
  · exact hasOneDecimal_toFixed1Str _

/-- Witness for claim C10 at the three-record example set. -/
theorem claim_C10_witness :
    exRecs3 ≠ [] ∧
    (∃ S : SurveyStats, getSurveyStats exToday exRecs3 = StatsResponse.stats S ∧
      hasOneDecimal S.averageAge = true ∧
      hasOneDecimal S.pizzaLoversPercentage = true ∧
      hasOneDecimal S.papWorsPercentage = true ∧
      hasOneDecimal S.averageEatOutRating = true ∧
      hasOneDecimal S.averageWatchMoviesRating = true ∧
      hasOneDecimal S.averageWatchTVRating = true ∧
      hasOneDecimal S.averageListenRadioRating = true ∧
      S.totalSurveys = exRecs3.length ∧
      S.oldest = listMax (agesOf exToday exRecs3) ∧
      S.youngest = listMin (agesOf exToday exRecs3)) :=
  ⟨by decide, claim_C10 exToday exRecs3 (by decide)⟩

/-- Claim C4: when validation fails, the submission path persists nothing
and responds with the full error list; that list is exactly the
concatenation, in field declaration order, of the per-field error lists,
and for every field name the errors reported under it are exactly the
errors of that field's own chain (no short-circuit on the first
failure). -/
theorem claim_C4 (today : SimpleDate) (x : RawInput) (store : List Survey)
    (h : validateSurvey today x ≠ []) :
    (submitSurvey today x store).2 = store ∧
    (submitSurvey today x store).1 = SubmitResponse.badRequest (validateSurvey today x) ∧
    validateSurvey today x = (fieldNames.map (fieldErrorsOf today x)).flatten ∧
    ∀ f : String, (validateSurvey today x).filter (fun e => e.1 == f) =
      fieldErrorsOf today x f := by
  refine ⟨?_, ?_, ?_, ?_⟩
  · simp [submitSurvey, h]
  · simp [submitSurvey, h]
  · simp [fieldNames, fieldErrorsOf, validateSurvey]
  · intro f
    simp only [validateSurvey, List.filter_append]
    rw [filter_key _ _ f (key_validateFullName x.fullName),
        filter_key _ _ f (key_validateEmail x.email),
        filter_key _ _ f (key_validateContactNumber x.contactNumber),
        filter_key _ _ f (key_validateDateOfBirth today x.dateOfBirth),
        filter_key _ _ f (key_validateFavoriteFoods x.favoriteFoods),
        filter_key _ _ f (key_validateRating _ _ x.eatOut),
        filter_key _ _ f (key_validateRating _ _ x.watchMovies),
        filter_key _ _ f (key_validateRating _ _ x.watchTV),
        filter_key _ _ f (key_validateRating _ _ x.listenRadio)]
    unfold fieldErrorsOf
    rcases eq_or_ne f ("fullName") with rfl | h1
    · simp
    rcases eq_or_ne f ("email") with rfl | h2
    · simp
    rcases eq_or_ne f ("contactNumber") with rfl | h3
    · simp
    rcases eq_or_ne f ("dateOfBirth") with rfl | h4
    · simp
    rcases eq_or_ne f ("favoriteFoods") with rfl | h5
    · simp
    rcases eq_or_ne f ("ratings.eatOut") with rfl | h6
    · simp
    rcases eq_or_ne f ("ratings.watchMovies") with rfl | h7
    · simp
    rcases eq_or_ne f ("ratings.watchTV") with rfl | h8
    · simp
    rcases eq_or_ne f ("ratings.listenRadio") with rfl | h9
    · simp
    simp [h1, h2, h3, h4, h5, h6, h7, h8, h9]

/-- Witness for claim C4 at the all-fields-missing submission. -/
theorem claim_C4_witness :
    validateSurvey ⟨2025, 1, 1⟩ emptyInput ≠ [] ∧
    ((submitSurvey ⟨2025, 1, 1⟩ emptyInput []).2 = [] ∧
     (submitSurvey ⟨2025, 1, 1⟩ emptyInput []).1 =
       SubmitResponse.badRequest (validateSurvey ⟨2025, 1, 1⟩ emptyInput) ∧
     validateSurvey ⟨2025, 1, 1⟩ emptyInput =
       (fieldNames.map (fieldErrorsOf ⟨2025, 1, 1⟩ emptyInput)).flatten ∧
     ∀ f : String, (validateSurvey ⟨2025, 1, 1⟩ emptyInput).filter (fun e => e.1 == f) =
       fieldErrorsOf ⟨2025, 1, 1⟩ emptyInput f) :=
  ⟨by decide, claim_C4 ⟨2025, 1, 1⟩ emptyInput [] (by decide)⟩
